import Mathlib

/-!
Verification of the ClawX arena core, shallowly embedded from the Python
sources:

* `src/backend/bot_runner.py` — tick engine (`execute_tick`, entropy fee,
  idle streak, error boundary);
* `src/backend/services/ledger_service.py` — append-only hash-chained
  ledger (`append_ledger_entry`, `get_balance`);
* `src/backend/services/market_service.py` — market queries, bet
  placement and instant research resolution;
* `src/backend/services/feed_ingestor.py` — external knowledge lookup
  with retry/backoff.

Modelling conventions:

* Money (Python `Decimal`) is modelled by `ℚ`; every decimal literal of
  the source is an exact rational, so Decimal arithmetic on the values
  that occur is mirrored exactly.
* SHA-256 is modelled by an abstract function parameter
  `sha256 : String → String`; the claims under verification concern the
  payload fed to the hash and the chaining of digests, never properties
  of SHA-256 itself.
* Database sessions are modelled by explicit state passing: a session
  holds a pending `ArenaState`; a commit publishes it, an exception
  discards it.  SQLAlchemy autoflush (the default for the session maker
  in `database.py`) means `SUM` queries inside a transaction see the
  rows added earlier in that same transaction, so `get_balance` is the
  sum over the pending ledger list.
* Timestamps, posts, logging and the pub/sub connection are not part of
  any claim and are either dropped or carried as plain inert strings.
-/

namespace ClawX

/-! ### Constants from bot_runner.py (v2.1) -/

/-- ENTROPY_BASE = Decimal 0.50. -/
def ENTROPY_BASE : ℚ := 1/2

/-- ENTROPY_IDLE_PENALTY = Decimal 0.25. -/
def ENTROPY_IDLE_PENALTY : ℚ := 1/4

/-- IDLE_PENALTY_INTERVAL = 5. -/
def IDLE_PENALTY_INTERVAL : ℕ := 5

/-- MAX_ENTROPY_FEE = Decimal 3.00. -/
def MAX_ENTROPY_FEE : ℚ := 3

/-- ENTROPY_FEE = ENTROPY_BASE (backward-compat alias used by the error
handler). -/
def ENTROPY_FEE : ℚ := ENTROPY_BASE

/-- MAX_MARKETS_PER_TICK = 3. -/
def MAX_MARKETS_PER_TICK : ℕ := 3

/-- Source constant MAX_TOTAL_STAKE_RATIO = Decimal 0.20; renamed here
only because of a lexical restriction on names. -/
def MAX_TOTAL_STAKE_FRAC : ℚ := 1/5

/-- CONFIDENCE_FLOOR = Decimal 0.65. -/
def CONFIDENCE_FLOOR : ℚ := 13/20

/-- STAKE_COEFFICIENT = Decimal 0.15. -/
def STAKE_COEFFICIENT : ℚ := 3/20

/-- MIN_PORTFOLIO_BALANCE = Decimal 5.0. -/
def MIN_PORTFOLIO_BALANCE : ℚ := 5

/-- RESEARCH_STAKE = Decimal 1.00. -/
def RESEARCH_STAKE : ℚ := 1

/-- RESEARCH_CONFIDENCE_FLOOR = Decimal 0.50. -/
def RESEARCH_CONFIDENCE_FLOOR : ℚ := 1/2

/-- TOOL_LOOKUP_FEE = Decimal 0.50. -/
def TOOL_LOOKUP_FEE : ℚ := 1/2

/-! ### Progressive entropy fee (bot_runner.calculate_entropy_fee) -/

/-- calculate_entropy_fee from bot_runner.py:
`fee = min(ENTROPY_BASE + ENTROPY_IDLE_PENALTY * (idle_streak // IDLE_PENALTY_INTERVAL), MAX_ENTROPY_FEE)`.
The Python `//` on a nonnegative int is Nat division. -/
def calculate_entropy_fee (idle_streak : ℕ) : ℚ :=
  min (ENTROPY_BASE + ENTROPY_IDLE_PENALTY * ((idle_streak / IDLE_PENALTY_INTERVAL : ℕ) : ℚ))
    MAX_ENTROPY_FEE

/-! ### Idle streak (bot_runner.get_idle_streak) -/

/-- get_idle_streak from bot_runner.py.  `entriesDesc` is the list of
`transaction_type` values of the ledger rows of one bot ordered by
sequence descending (newest first), exactly what the SQL query returns
before its `LIMIT 100`; the model applies the limit with `take 100` and
then counts consecutive HEARTBEAT entries from the newest. -/
def get_idle_streak (entriesDesc : List String) : ℕ :=
  ((entriesDesc.take 100).takeWhile (fun t => t == "HEARTBEAT")).length

/-- Trailing HEARTBEAT run of the full (unlimited) newest-first ledger:
the notion used by claim C10 to describe the true streak length. -/
def heartbeat_run (entriesDesc : List String) : ℕ :=
  (entriesDesc.takeWhile (fun t => t == "HEARTBEAT")).length

theorem length_takeWhile_take (p : String → Bool) :
    ∀ (l : List String) (n : ℕ),
      ((l.take n).takeWhile p).length = min ((l.takeWhile p).length) n := by
  intro l
  induction l with
  | nil => intro n; simp
  | cons a tl ih =>
    intro n
    cases n with
    | zero => simp
    | succ m =>
      by_cases hp : p a
      · simp [List.take_succ_cons, List.takeWhile_cons, hp, ih m,
          Nat.succ_min_succ]
      · simp [List.take_succ_cons, List.takeWhile_cons, hp]

/-! ### Hash-chained ledger (services/ledger_service.py) -/

/-- A row of the `ledger` table as created by `append_ledger_entry`.
`amount` and `timestamp` are carried as the strings that the Python
f-string interpolates into the hash payload (the serialization of the
Decimal amount and `timestamp.isoformat()`). -/
structure LedgerRow where
  bot_id : ℕ
  amount : String
  transaction_type : String
  reference_id : String
  timestamp : String
  previous_hash : String
  hash : String
  sequence : ℕ
deriving DecidableEq

/-- Zero digest used for the first entry of a chain: `"0" * 64`. -/
def ZERO_HASH : String :=
  "0000000000000000000000000000000000000000000000000000000000000000"

/-- Tip of the chain as read by `ORDER BY sequence DESC LIMIT 1`: the
row with the highest sequence (rows are stored in insertion order in the
model list). -/
def ledger_tip : List LedgerRow → Option LedgerRow
  | [] => none
  | e :: rest =>
    match ledger_tip rest with
    | none => some e
    | some t => if t.sequence ≥ e.sequence then some t else some e

/-- Hash payload of `append_ledger_entry`:
`f"{bot_id}|{amount}|{transaction_type}|{reference_id}|{timestamp.isoformat()}|{previous_hash}|{next_sequence}"`. -/
def hash_payload (bot_id : ℕ) (amount ttype ref ts prev : String) (seq : ℕ) : String :=
  s!"{bot_id}|{amount}|{ttype}|{ref}|{ts}|{prev}|{seq}"

/-- append_ledger_entry from ledger_service.py: read the tip, derive
`previous_hash` and `next_sequence`, hash the payload, build the row.
The caller adds the returned row to the session (modelled by appending
it to the chain list). -/
def append_ledger_entry (sha256 : String → String) (chain : List LedgerRow)
    (bot_id : ℕ) (amount ttype ref ts : String) : LedgerRow :=
  let last := ledger_tip chain
  let previous_hash := match last with
    | some e => e.hash
    | none => ZERO_HASH
  let next_sequence := match last with
    | some e => e.sequence + 1
    | none => 1
  let payload := hash_payload bot_id amount ttype ref ts previous_hash next_sequence
  ⟨bot_id, amount, ttype, ref, ts, previous_hash, sha256 payload, next_sequence⟩

/-- One call to append_ledger_entry: the data chosen by the caller. -/
structure AppendInput where
  amount : String
  transaction_type : String
  reference_id : String
  timestamp : String
deriving DecidableEq

/-- A chain as produced by starting from the empty ledger of one bot and
running `append_ledger_entry` once per input, adding each returned row. -/
def build_chain (sha256 : String → String) (bot_id : ℕ)
    (inputs : List AppendInput) : List LedgerRow :=
  inputs.foldl
    (fun chain i =>
      chain ++ [append_ledger_entry sha256 chain bot_id
        i.amount i.transaction_type i.reference_id i.timestamp]) []

/-- Conditions of claim C3 on a single entry, given the expected
previous digest and expected sequence: the digest recomputes from the
pipe-separated payload of the entry fields. -/
def entry_ok (sha256 : String → String) (bot_id : ℕ) (prev : String) (seq : ℕ)
    (e : LedgerRow) : Bool :=
  e.bot_id == bot_id && e.sequence == seq && e.previous_hash == prev &&
    e.hash == sha256 (hash_payload e.bot_id e.amount e.transaction_type
      e.reference_id e.timestamp e.previous_hash e.sequence)

/-- Checker for the chain conditions of claim C3, positionally: starting
from expected previous digest `prev` and expected sequence `seq`, each
entry must satisfy `entry_ok` and hand its own digest to its successor
with the next sequence. -/
def chain_ok_from (sha256 : String → String) (bot_id : ℕ) :
    String → ℕ → List LedgerRow → Bool
  | _, _, [] => true
  | prev, seq, e :: rest =>
    entry_ok sha256 bot_id prev seq e &&
      chain_ok_from sha256 bot_id e.hash (seq + 1) rest

/-- Chain conditions of claim C3: sequences 1, 2, 3, … with no gaps, the
first previous digest is the zero string, every later previous digest is
the digest of the prior entry, and every digest recomputes from its
fields. -/
def chain_ok (sha256 : String → String) (bot_id : ℕ) (entries : List LedgerRow) : Bool :=
  chain_ok_from sha256 bot_id ZERO_HASH 1 entries

/-- Expected (previous digest, next sequence) pair after walking a chain
segment, threading each digest to the next entry. -/
def chain_end (prev : String) (seq : ℕ) : List LedgerRow → String × ℕ
  | [] => (prev, seq)
  | e :: rest => chain_end e.hash (seq + 1) rest

theorem ledger_tip_mem : ∀ (l : List LedgerRow) (t : LedgerRow),
    ledger_tip l = some t → t ∈ l := by
  intro l
  induction l with
  | nil => intro t h; simp [ledger_tip] at h
  | cons e rest ih =>
    intro t h
    simp only [ledger_tip] at h
    cases hrest : ledger_tip rest with
    | none => rw [hrest] at h; simp at h; simp [h]
    | some u =>
      rw [hrest] at h
      by_cases hseq : u.sequence ≥ e.sequence
      · simp [hseq] at h
        exact List.mem_cons_of_mem e (h ▸ ih u hrest)
      · simp [hseq] at h
        simp [h]

theorem chain_ok_from_end (sha256 : String → String) (bot_id : ℕ) :
    ∀ (chain : List LedgerRow) (prev : String) (seq : ℕ),
      chain_ok_from sha256 bot_id prev seq chain = true →
      (chain_end prev seq chain =
        (match ledger_tip chain with
          | none => (prev, seq)
          | some t => (t.hash, t.sequence + 1))) ∧
      (∀ x ∈ chain, seq ≤ x.sequence) := by
  intro chain
  induction chain with
  | nil => intro prev seq _; simp [chain_end, ledger_tip]
  | cons e rest ih =>
    intro prev seq h
    simp only [chain_ok_from, Bool.and_eq_true] at h
    obtain ⟨hentry, hrest⟩ := h
    simp only [entry_ok, Bool.and_eq_true, beq_iff_eq] at hentry
    obtain ⟨⟨⟨hbot, hseq⟩, hprev⟩, hhash⟩ := hentry
    obtain ⟨hend, hmem⟩ := ih e.hash (seq + 1) hrest
    constructor
    · show chain_end e.hash (seq + 1) rest = _
      rw [hend]
      cases htip : ledger_tip rest with
      | none => simp only [ledger_tip, htip, hseq]
      | some t =>
        have ht : seq + 1 ≤ t.sequence := hmem t (ledger_tip_mem rest t htip)
        have : t.sequence ≥ e.sequence := by omega
        simp only [ledger_tip, htip, this, if_pos]
    · intro x hx
      rcases List.mem_cons.mp hx with hx | hx
      · subst hx; omega
      · have := hmem x hx; omega

theorem chain_ok_from_append (sha256 : String → String) (bot_id : ℕ) :
    ∀ (chain : List LedgerRow) (prev : String) (seq : ℕ) (e : LedgerRow),
      chain_ok_from sha256 bot_id prev seq (chain ++ [e]) =
        (chain_ok_from sha256 bot_id prev seq chain &&
          entry_ok sha256 bot_id (chain_end prev seq chain).1
            (chain_end prev seq chain).2 e) := by
  intro chain
  induction chain with
  | nil => intro prev seq e; simp [chain_ok_from, chain_end]
  | cons a rest ih =>
    intro prev seq e
    simp only [List.cons_append, chain_ok_from, chain_end, List.append_eq, ih,
      Bool.and_assoc]

theorem build_chain_ok_step (sha256 : String → String) (bot_id : ℕ)
    (chain : List LedgerRow) (i : AppendInput)
    (h : chain_ok sha256 bot_id chain = true) :
    chain_ok sha256 bot_id
      (chain ++ [append_ledger_entry sha256 chain bot_id
        i.amount i.transaction_type i.reference_id i.timestamp]) = true := by
  unfold chain_ok at h ⊢
  rw [chain_ok_from_append, h, Bool.true_and]
  have hend := (chain_ok_from_end sha256 bot_id chain ZERO_HASH 1 h).1
  cases htip : ledger_tip chain with
  | none =>
    rw [htip] at hend
    simp only [append_ledger_entry, htip, hend, entry_ok, hash_payload]
    simp
  | some t =>
    rw [htip] at hend
    simp only [append_ledger_entry, htip, hend, entry_ok, hash_payload]
    simp

theorem build_chain_ok_aux (sha256 : String → String) (bot_id : ℕ) :
    ∀ (inputs : List AppendInput) (chain : List LedgerRow),
      chain_ok sha256 bot_id chain = true →
      chain_ok sha256 bot_id
        (inputs.foldl
          (fun ch i =>
            ch ++ [append_ledger_entry sha256 ch bot_id
              i.amount i.transaction_type i.reference_id i.timestamp]) chain) = true := by
  intro inputs
  induction inputs with
  | nil => intro chain h; simpa using h
  | cons i is ih =>
    intro chain h
    exact ih _ (build_chain_ok_step sha256 bot_id chain i h)

/-- C3: for every agent ledger chain built by repeated
`append_ledger_entry` calls (any amounts, kinds, references and
timestamps, any stand-in for SHA-256): the first entry has sequence 1
and previous digest equal to the 64-character zero string, sequences
advance by exactly one from the tip (1, 2, 3, … with no gaps), each
later entry carries the digest of the entry with the previous sequence
as its previous digest, and every digest is the hash of the UTF-8
pipe-separated payload
`agent_id|amount|kind|reference|timestamp_iso|previous_digest|sequence`
recomputed from the stored fields — all packaged in the `chain_ok`
checker. -/
theorem ledger_chain_spec (sha256 : String → String) (bot_id : ℕ)
    (inputs : List AppendInput) :
    chain_ok sha256 bot_id (build_chain sha256 bot_id inputs) = true ∧
      ZERO_HASH.length = 64 := by
  refine ⟨?_, by decide⟩
  unfold build_chain
  exact build_chain_ok_aux sha256 bot_id inputs [] rfl

/-- C7: the progressive entropy fee is exactly
`min(BASE + floor(idle_streak / K) * PENALTY, MAX_FEE)` with BASE = 0.50,
K = 5, PENALTY = 0.25, MAX_FEE = 3.00; it is monotonically
non-decreasing in the idle streak, bounded above by MAX_FEE, and equals
BASE + PENALTY = 0.75 at the tier boundary idle_streak = K. -/
theorem calculate_entropy_fee_spec :
    (∀ n : ℕ, calculate_entropy_fee n =
      min ((1 : ℚ)/2 + ((n / 5 : ℕ) : ℚ) * ((1 : ℚ)/4)) 3) ∧
    (∀ n m : ℕ, n ≤ m → calculate_entropy_fee n ≤ calculate_entropy_fee m) ∧
    (∀ n : ℕ, calculate_entropy_fee n ≤ MAX_ENTROPY_FEE) ∧
    calculate_entropy_fee IDLE_PENALTY_INTERVAL = ENTROPY_BASE + ENTROPY_IDLE_PENALTY := by
  refine ⟨?_, ?_, ?_, ?_⟩
  · intro n
    simp [calculate_entropy_fee, ENTROPY_BASE, ENTROPY_IDLE_PENALTY,
      IDLE_PENALTY_INTERVAL, MAX_ENTROPY_FEE, mul_comm]
  · intro n m hnm
    unfold calculate_entropy_fee
    apply min_le_min _ le_rfl
    have hdiv : (n / IDLE_PENALTY_INTERVAL : ℕ) ≤ (m / IDLE_PENALTY_INTERVAL : ℕ) :=
      Nat.div_le_div_right hnm
    have : ((n / IDLE_PENALTY_INTERVAL : ℕ) : ℚ) ≤ ((m / IDLE_PENALTY_INTERVAL : ℕ) : ℚ) := by
      exact_mod_cast hdiv
    have hpen : (0 : ℚ) ≤ ENTROPY_IDLE_PENALTY := by norm_num [ENTROPY_IDLE_PENALTY]
    nlinarith
  · intro n
    unfold calculate_entropy_fee
    exact min_le_right _ _
  · norm_num [calculate_entropy_fee, ENTROPY_BASE, ENTROPY_IDLE_PENALTY,
      IDLE_PENALTY_INTERVAL, MAX_ENTROPY_FEE]

/-- Concrete application of calculate_entropy_fee_spec: monotonicity at
3 ≤ 7 with both fees evaluated. -/
theorem calculate_entropy_fee_spec_witness :
    (3 : ℕ) ≤ 7 ∧ calculate_entropy_fee 3 ≤ calculate_entropy_fee 7 ∧
      calculate_entropy_fee 3 = 1/2 ∧ calculate_entropy_fee 7 = 3/4 :=
  ⟨by decide, calculate_entropy_fee_spec.2.1 3 7 (by decide),
    by norm_num [calculate_entropy_fee, ENTROPY_BASE, ENTROPY_IDLE_PENALTY,
      IDLE_PENALTY_INTERVAL, MAX_ENTROPY_FEE],
    by norm_num [calculate_entropy_fee, ENTROPY_BASE, ENTROPY_IDLE_PENALTY,
      IDLE_PENALTY_INTERVAL, MAX_ENTROPY_FEE]⟩

/-- C10: get_idle_streak scans the trailing HEARTBEAT run of the ledger
newest-first but looks at only the 100 most recent entries: a trailing
run of length at most 100 is reported exactly, a longer run is reported
as exactly 100. -/
theorem get_idle_streak_spec (entriesDesc : List String) :
    (heartbeat_run entriesDesc ≤ 100 →
      get_idle_streak entriesDesc = heartbeat_run entriesDesc) ∧
    (100 < heartbeat_run entriesDesc → get_idle_streak entriesDesc = 100) := by
  have h := length_takeWhile_take (fun t => t == "HEARTBEAT") entriesDesc 100
  unfold get_idle_streak heartbeat_run at *
  constructor
  · intro hle; omega
  · intro hgt; omega

set_option maxRecDepth 10000 in
/-- Concrete application of get_idle_streak_spec: both the short-run
branch (exact count) and the saturated branch (caps at 100). -/
theorem get_idle_streak_spec_witness :
    (heartbeat_run ["HEARTBEAT", "HEARTBEAT", "WAGER", "HEARTBEAT"] ≤ 100 ∧
      get_idle_streak ["HEARTBEAT", "HEARTBEAT", "WAGER", "HEARTBEAT"] =
        heartbeat_run ["HEARTBEAT", "HEARTBEAT", "WAGER", "HEARTBEAT"]) ∧
    (100 < heartbeat_run (List.replicate 150 "HEARTBEAT") ∧
      get_idle_streak (List.replicate 150 "HEARTBEAT") = 100) :=
  ⟨⟨by decide, (get_idle_streak_spec _).1 (by decide)⟩,
   ⟨by decide, (get_idle_streak_spec _).2 (by decide)⟩⟩

/-! ### Knowledge lookup (services/feed_ingestor.py, wikipedia_lookup) -/

/-- Outcome of one HTTP GET against the Wikipedia REST summary endpoint,
as discriminated by `wikipedia_lookup`: a JSON body (whose pageid may be
missing), one of the specially handled status codes, a timeout, or any
other error. -/
inductive WikiResponse where
  | ok (pageid : Option ℕ) (title : String) (extract : String)
  | notFound
  | forbidden
  | rateLimited
  | timeout
  | otherError
deriving DecidableEq

/-- Result dict of wikipedia_lookup: {title, pageid, extract}. -/
structure WikiResult where
  title : String
  pageid : ℕ
  extract : String
deriving DecidableEq

/-- Observable trace of one wikipedia_lookup call: the returned value,
the backoff waits that were slept, and the number of HTTP requests made
against the primary endpoint. -/
structure LookupTrace where
  result : Option WikiResult
  waits : List ℚ
  calls : ℕ
deriving DecidableEq

/-- Retry loop of wikipedia_lookup (`for attempt in range(max_retries)`),
by remaining iterations.  `responses` maps the attempt index to the
outcome of that HTTP request; `fallback` stands for the result of
`_mediawiki_lookup`, invoked on a 403.  404 and any unexpected error
return None at once; 429 and timeout sleep `base_backoff * 2 ** attempt`
and continue; a body without pageid returns None; exhausting the range
returns None. -/
def wikipedia_lookup_go (responses : ℕ → WikiResponse) (fallback : Option WikiResult)
    (base_backoff : ℚ) : ℕ → ℕ → List ℚ → ℕ → LookupTrace
  | 0, _, waits, calls => ⟨none, waits, calls⟩
  | remaining + 1, attempt, waits, calls =>
    match responses attempt with
    | .notFound => ⟨none, waits, calls + 1⟩
    | .forbidden => ⟨fallback, waits, calls + 1⟩
    | .rateLimited =>
      wikipedia_lookup_go responses fallback base_backoff remaining (attempt + 1)
        (waits ++ [base_backoff * 2 ^ attempt]) (calls + 1)
    | .timeout =>
      wikipedia_lookup_go responses fallback base_backoff remaining (attempt + 1)
        (waits ++ [base_backoff * 2 ^ attempt]) (calls + 1)
    | .otherError => ⟨none, waits, calls + 1⟩
    | .ok pageid title extract =>
      match pageid with
      | none => ⟨none, waits, calls + 1⟩
      | some pid => ⟨some ⟨title, pid, extract.take 300⟩, waits, calls + 1⟩

/-- wikipedia_lookup from feed_ingestor.py with its defaults
max_retries = 3 and base_backoff = 2.0 passed explicitly. -/
def wikipedia_lookup (responses : ℕ → WikiResponse) (fallback : Option WikiResult)
    (max_retries : ℕ) (base_backoff : ℚ) : LookupTrace :=
  wikipedia_lookup_go responses fallback base_backoff max_retries 0 [] 0

/-- An attempt outcome that causes another loop iteration. -/
def retriable (r : WikiResponse) : Prop :=
  r = WikiResponse.rateLimited ∨ r = WikiResponse.timeout

theorem wikipedia_lookup_go_skip (responses : ℕ → WikiResponse)
    (fallback : Option WikiResult) (base : ℚ) :
    ∀ (k remaining attempt : ℕ) (waits : List ℚ) (calls : ℕ),
      (∀ i, i < k → retriable (responses (attempt + i))) → k ≤ remaining →
      wikipedia_lookup_go responses fallback base remaining attempt waits calls =
        wikipedia_lookup_go responses fallback base (remaining - k) (attempt + k)
          (waits ++ (List.range k).map (fun i => base * 2 ^ (attempt + i))) (calls + k) := by
  intro k
  induction k with
  | zero => intro remaining attempt waits calls _ _; simp
  | succ j ih =>
    intro remaining attempt waits calls hret hk
    cases remaining with
    | zero => omega
    | succ r =>
      have h0 : retriable (responses attempt) := by
        have := hret 0 (by omega)
        simpa using this
      have hstep :
          wikipedia_lookup_go responses fallback base (r + 1) attempt waits calls =
            wikipedia_lookup_go responses fallback base r (attempt + 1)
              (waits ++ [base * 2 ^ attempt]) (calls + 1) := by
        rcases h0 with h0 | h0 <;>
          simp only [wikipedia_lookup_go, h0]
      rw [hstep]
      have hrec := ih r (attempt + 1) (waits ++ [base * 2 ^ attempt]) (calls + 1)
        (fun i hi => by
          have := hret (i + 1) (by omega)
          simpa [Nat.add_assoc, Nat.add_comm 1 i] using this)
        (by omega)
      rw [hrec]
      have hrange : (waits ++ [base * 2 ^ attempt]) ++
            (List.range j).map (fun i => base * 2 ^ (attempt + 1 + i)) =
          waits ++ (List.range (j + 1)).map (fun i => base * 2 ^ (attempt + i)) := by
        rw [List.append_assoc, List.singleton_append, List.range_succ_eq_map]
        simp only [List.map_cons, List.map_map, Nat.add_zero]
        congr 1
        congr 1
        apply List.map_congr_left
        intro i _
        simp only [Function.comp_apply]
        have harith : attempt + 1 + i = attempt + (i + 1) := by omega
        rw [harith]
      rw [hrange]
      congr 1 <;> omega

theorem wikipedia_lookup_go_calls_le (responses : ℕ → WikiResponse)
    (fallback : Option WikiResult) (base : ℚ) :
    ∀ (remaining attempt : ℕ) (waits : List ℚ) (calls : ℕ),
      (wikipedia_lookup_go responses fallback base remaining attempt waits calls).calls ≤
        calls + remaining := by
  intro remaining
  induction remaining with
  | zero => intro attempt waits calls; simp [wikipedia_lookup_go]
  | succ r ih =>
    intro attempt waits calls
    simp only [wikipedia_lookup_go]
    cases hresp : responses attempt with
    | ok pageid title extract =>
      cases pageid <;> dsimp only <;> omega
    | notFound => dsimp only; omega
    | forbidden => dsimp only; omega
    | rateLimited =>
      dsimp only
      have := ih (attempt + 1) (waits ++ [base * 2 ^ attempt]) (calls + 1)
      omega
    | timeout =>
      dsimp only
      have := ih (attempt + 1) (waits ++ [base * 2 ^ attempt]) (calls + 1)
      omega
    | otherError => dsimp only; omega

theorem wikipedia_lookup_go_calls_retriable (responses : ℕ → WikiResponse)
    (fallback : Option WikiResult) (base : ℚ) :
    ∀ (remaining attempt : ℕ) (waits : List ℚ) (calls i : ℕ),
      calls + i + 2 ≤
        (wikipedia_lookup_go responses fallback base remaining attempt waits calls).calls →
      retriable (responses (attempt + i)) := by
  intro remaining
  induction remaining with
  | zero => intro attempt waits calls i h; simp [wikipedia_lookup_go] at h; omega
  | succ r ih =>
    intro attempt waits calls i h
    simp only [wikipedia_lookup_go] at h
    cases hresp : responses attempt with
    | ok pageid title extract =>
      rw [hresp] at h
      cases pageid <;> dsimp only at h <;> omega
    | notFound => rw [hresp] at h; dsimp only at h; omega
    | forbidden => rw [hresp] at h; dsimp only at h; omega
    | otherError => rw [hresp] at h; dsimp only at h; omega
    | rateLimited =>
      rw [hresp] at h
      dsimp only at h
      cases i with
      | zero =>
        left
        simpa using hresp
      | succ j =>
        have := ih (attempt + 1) (waits ++ [base * 2 ^ attempt]) (calls + 1) j (by omega)
        have haddr : attempt + 1 + j = attempt + (j + 1) := by omega
        rwa [haddr] at this
    | timeout =>
      rw [hresp] at h
      dsimp only at h
      cases i with
      | zero =>
        right
        simpa using hresp
      | succ j =>
        have := ih (attempt + 1) (waits ++ [base * 2 ^ attempt]) (calls + 1) j (by omega)
        have haddr : attempt + 1 + j = attempt + (j + 1) := by omega
        rwa [haddr] at this

/-- C8: wikipedia_lookup never returns a result on HTTP 404 — after any
prefix of retried attempts, a 404 response ends the call at once with
None, no further request and no further wait; an attempt is retried only
when its response was 429 or a timeout, each retry sleeping
base_backoff * 2 ^ attempt (doubling per attempt); when every allowed
attempt is retried the loop exhausts max_retries and returns None; and
the number of requests never exceeds max_retries. -/
theorem wikipedia_lookup_spec (responses : ℕ → WikiResponse)
    (fallback : Option WikiResult) (max_retries : ℕ) (base : ℚ) :
    (∀ k, k < max_retries → (∀ i, i < k → retriable (responses i)) →
      responses k = WikiResponse.notFound →
      wikipedia_lookup responses fallback max_retries base =
        ⟨none, (List.range k).map (fun i => base * 2 ^ i), k + 1⟩) ∧
    (∀ i, i + 2 ≤ (wikipedia_lookup responses fallback max_retries base).calls →
      retriable (responses i)) ∧
    ((∀ i, i < max_retries → retriable (responses i)) →
      (wikipedia_lookup responses fallback max_retries base).result = none ∧
      (wikipedia_lookup responses fallback max_retries base).waits =
        (List.range max_retries).map (fun i => base * 2 ^ i)) ∧
    (wikipedia_lookup responses fallback max_retries base).calls ≤ max_retries := by
  refine ⟨?_, ?_, ?_, ?_⟩
  · intro k hk hpre h404
    unfold wikipedia_lookup
    have hskip := wikipedia_lookup_go_skip responses fallback base k max_retries 0 [] 0
      (fun i hi => by simpa using hpre i hi) (by omega)
    rw [hskip]
    obtain ⟨d, hd⟩ : ∃ d, max_retries - k = d + 1 := ⟨max_retries - k - 1, by omega⟩
    rw [hd]
    have h404x : responses (0 + k) = WikiResponse.notFound := by simpa using h404
    simp only [wikipedia_lookup_go, h404x]
    simp
  · intro i hi
    have := wikipedia_lookup_go_calls_retriable responses fallback base max_retries 0 [] 0 i
      (by simpa [wikipedia_lookup] using hi)
    simpa using this
  · intro hall
    unfold wikipedia_lookup
    have hskip := wikipedia_lookup_go_skip responses fallback base max_retries max_retries 0 [] 0
      (fun i hi => by simpa using hall i hi) le_rfl
    rw [hskip]
    simp [wikipedia_lookup_go]
  · have := wikipedia_lookup_go_calls_le responses fallback base max_retries 0 [] 0
    simpa [wikipedia_lookup] using this

/-- Concrete application of wikipedia_lookup_spec: a 429 on the first
attempt, then a 404: two requests, one backoff sleep of 2.0 s, and no
result. -/
theorem wikipedia_lookup_spec_witness :
    wikipedia_lookup
      (fun i => if i = 0 then WikiResponse.rateLimited else WikiResponse.notFound)
      none 3 2 = ⟨none, [2], 2⟩ := by
  have h := (wikipedia_lookup_spec
      (fun i => if i = 0 then WikiResponse.rateLimited else WikiResponse.notFound)
      none 3 2).1 1 (by omega)
    (fun i hi => by
      have h0 : i = 0 := by omega
      subst h0
      exact Or.inl rfl)
    rfl
  simpa [List.range_succ] using h

/-! ### Arena data model (models.py), restricted to the fields the
claims touch.  The tick engine serializes ticks per agent, so the state
carries the rows of the one bot under execution; ledger rows here keep
only (amount, transaction_type, reference_id) — the projection of
`append_ledger_entry` output that the tick-engine claims mention, the
hash-chain fields being covered by the LedgerRow model above. -/

/-- Row of the bots table: status ∈ {ALIVE, DEAD} and the cached
(denormalized) balance column. -/
structure BotRow where
  status : String
  balance : ℚ
deriving DecidableEq

/-- Ledger row projection used by the tick engine model. -/
structure TickEntry where
  amount : ℚ
  transaction_type : String
  reference_id : String
deriving DecidableEq

/-- Row of the markets table.  `answer_hash` is
`resolution_criteria.get("answer_hash", "")`; market ids are numbers
standing in for the UUIDs. -/
structure Market where
  id : ℕ
  description : String
  source_type : String
  answer_hash : String
  bounty : ℚ
  deadline : ℕ
  status : String
  outcome : Option String
deriving DecidableEq

/-- Row of the market_predictions table (payout column defaults to 0). -/
structure MarketPrediction where
  market_id : ℕ
  bot_id : ℕ
  outcome : String
  stake : ℚ
  status : String
  payout : ℚ
deriving DecidableEq

/-- Session-visible database state for one bot: its row, its ledger in
insertion order, all markets and all prediction rows. -/
structure ArenaState where
  bot : Option BotRow
  ledger : List TickEntry
  markets : List Market
  predictions : List MarketPrediction
deriving DecidableEq

/-- get_balance from ledger_service.py: the chain sum
`SELECT SUM(amount) WHERE bot_id = …`, 0 when no entries exist.  With
autoflush this sees the rows pending in the session. -/
def get_balance (ledger : List TickEntry) : ℚ :=
  (ledger.map (fun e => e.amount)).sum

/-! ### Market service (services/market_service.py) -/

/-- Insertion step for the `ORDER BY deadline ASC` of the market query. -/
def insertByDeadline (m : Market) : List Market → List Market
  | [] => [m]
  | x :: xs => if m.deadline ≤ x.deadline then m :: x :: xs else x :: insertByDeadline m xs

/-- Sort of the market query result by deadline ascending. -/
def sortByDeadline : List Market → List Market
  | [] => []
  | x :: xs => insertByDeadline x (sortByDeadline xs)

/-- get_active_markets_for_agent from market_service.py: OPEN markets
the bot has not already bet on, ordered by soonest deadline, limited. -/
def get_active_markets_for_agent (bot_id : ℕ) (st : ArenaState) (limit : ℕ) :
    List Market :=
  (sortByDeadline (st.markets.filter (fun m =>
    m.status == "OPEN" &&
      !(st.predictions.any (fun p => p.bot_id == bot_id && p.market_id == m.id))))).take limit

/-- place_market_bet from market_service.py: validates the market is
present and OPEN and the stake positive (ValueError otherwise, modelled
by `.error`), then adds a PENDING MarketPrediction and a MARKET_STAKE
ledger entry of −stake.  Does not commit and does not touch the bot
balance. -/
def place_market_bet (bot_id : ℕ) (market_id : ℕ) (outcome : String) (stake : ℚ)
    (tick_id : String) (st : ArenaState) : Except String (ArenaState × MarketPrediction) :=
  match st.markets.find? (fun m => m.id == market_id) with
  | none => .error s!"Market {market_id} not found"
  | some market =>
    if market.status != "OPEN" then .error s!"Market {market_id} is not OPEN"
    else if stake ≤ 0 then .error s!"Stake must be positive, got {stake}"
    else
      let prediction : MarketPrediction := ⟨market_id, bot_id, outcome, stake, "PENDING", 0⟩
      .ok (⟨st.bot,
        st.ledger ++ [⟨-stake, "MARKET_STAKE", s!"TICK:{tick_id}:MARKET:{market_id}"⟩],
        st.markets, st.predictions ++ [prediction]⟩, prediction)

/-- Python str.strip() — remove leading and trailing whitespace — on
the character list of the string (kernel-computable, unlike the
substring-based library trim). -/
def string_strip (s : String) : String :=
  ⟨((s.data.dropWhile Char.isWhitespace).reverse.dropWhile Char.isWhitespace).reverse⟩

/-- Python slice `s[:n]` by characters. -/
def string_take (s : String) (n : ℕ) : String :=
  ⟨s.data.take n⟩

/-- Return value of submit_research_answer: the updated session state,
the prediction row (None on CLOSED) and the result string. -/
structure SubmitOutcome where
  st : ArenaState
  prediction : Option MarketPrediction
  result : String
deriving DecidableEq

/-- submit_research_answer from market_service.py: on a missing market,
a non-RESEARCH market or a non-positive stake raise ValueError
(`.error`); on a non-OPEN market return (None, CLOSED) with no writes;
otherwise record the prediction (outcome = trimmed answer, clipped to
500 chars) and a MARKET_STAKE entry of −stake, then compare
sha256(trimmed answer) with the answer_hash commit of the market
criteria: on a match resolve the market (status RESOLVED, outcome =
trimmed answer), mark the prediction WIN with payout = bounty + stake
and append a RESEARCH_PAYOUT entry of +payout; on a mismatch mark the
prediction LOSS and leave the market untouched.  Does not commit. -/
def submit_research_answer (sha256 : String → String) (bot_id : ℕ) (market_id : ℕ)
    (answer : String) (stake : ℚ) (tick_id : String) (st : ArenaState) :
    Except String SubmitOutcome :=
  match st.markets.find? (fun m => m.id == market_id) with
  | none => .error s!"Market {market_id} not found"
  | some market =>
    if market.status != "OPEN" then .ok ⟨st, none, "CLOSED"⟩
    else if market.source_type != "RESEARCH" then
      .error s!"Market {market_id} is not RESEARCH type"
    else if stake ≤ 0 then .error s!"Stake must be positive, got {stake}"
    else
      let clean_answer := string_strip answer
      let stake_entry : TickEntry :=
        ⟨-stake, "MARKET_STAKE", s!"TICK:{tick_id}:RESEARCH:{market_id}"⟩
      let user_hash := sha256 clean_answer
      if user_hash == market.answer_hash then
        let payout := market.bounty + stake
        let prediction : MarketPrediction :=
          ⟨market_id, bot_id, string_take clean_answer 500, stake, "WIN", payout⟩
        .ok ⟨⟨st.bot,
          st.ledger ++ [stake_entry,
            ⟨payout, "RESEARCH_PAYOUT", s!"TICK:{tick_id}:RESEARCH_WIN:{market_id}"⟩],
          st.markets.map (fun m =>
            if m.id == market_id then
              { m with status := "RESOLVED", outcome := some clean_answer }
            else m),
          st.predictions ++ [prediction]⟩, some prediction, "CORRECT"⟩
      else
        let prediction : MarketPrediction :=
          ⟨market_id, bot_id, string_take clean_answer 500, stake, "LOSS", 0⟩
        .ok ⟨⟨st.bot, st.ledger ++ [stake_entry], st.markets,
          st.predictions ++ [prediction]⟩, some prediction, "WRONG"⟩

/-- C6: submit_research_answer on an OPEN RESEARCH market with positive
stake always records the MarketPrediction and a MARKET_STAKE entry of
−stake; correctness is SHA-256 of the whitespace-trimmed answer against
the answer_hash commit of the market criteria; a match resolves the
market (RESOLVED, outcome = the trimmed answer that was compared) with
prediction WIN, payout = bounty + stake and a RESEARCH_PAYOUT entry of
+payout; a mismatch marks the prediction LOSS, leaves the market OPEN
and writes no payout entry; a non-OPEN market yields (None, CLOSED)
with no writes. -/
theorem submit_research_answer_spec (sha256 : String → String)
    (bot_id market_id : ℕ) (answer : String) (stake : ℚ) (tick_id : String)
    (st : ArenaState) (market : Market)
    (hfind : st.markets.find? (fun m => m.id == market_id) = some market) :
    (market.status = "OPEN" → market.source_type = "RESEARCH" → 0 < stake →
      (sha256 (string_strip answer) = market.answer_hash →
        submit_research_answer sha256 bot_id market_id answer stake tick_id st =
          .ok ⟨⟨st.bot,
            st.ledger ++
              [⟨-stake, "MARKET_STAKE", s!"TICK:{tick_id}:RESEARCH:{market_id}"⟩,
               ⟨market.bounty + stake, "RESEARCH_PAYOUT",
                 s!"TICK:{tick_id}:RESEARCH_WIN:{market_id}"⟩],
            st.markets.map (fun m =>
              if m.id == market_id then
                { m with status := "RESOLVED", outcome := some (string_strip answer) }
              else m),
            st.predictions ++
              [⟨market_id, bot_id, string_take (string_strip answer) 500, stake, "WIN",
                market.bounty + stake⟩]⟩,
            some ⟨market_id, bot_id, string_take (string_strip answer) 500, stake, "WIN",
              market.bounty + stake⟩, "CORRECT"⟩) ∧
      (sha256 (string_strip answer) ≠ market.answer_hash →
        submit_research_answer sha256 bot_id market_id answer stake tick_id st =
          .ok ⟨⟨st.bot,
            st.ledger ++
              [⟨-stake, "MARKET_STAKE", s!"TICK:{tick_id}:RESEARCH:{market_id}"⟩],
            st.markets,
            st.predictions ++
              [⟨market_id, bot_id, string_take (string_strip answer) 500, stake, "LOSS", 0⟩]⟩,
            some ⟨market_id, bot_id, string_take (string_strip answer) 500, stake, "LOSS", 0⟩,
            "WRONG"⟩)) ∧
    (market.status ≠ "OPEN" →
      submit_research_answer sha256 bot_id market_id answer stake tick_id st =
        .ok ⟨st, none, "CLOSED"⟩) := by
  constructor
  · intro hopen hres hstake
    have hnotle : ¬ stake ≤ 0 := not_le.mpr hstake
    constructor
    · intro hmatch
      simp [submit_research_answer, hfind, hopen, hres, hnotle, hmatch]
    · intro hmiss
      simp [submit_research_answer, hfind, hopen, hres, hnotle, hmiss]
  · intro hclosed
    simp [submit_research_answer, hfind, hclosed]

/-- Concrete application of submit_research_answer_spec: an OPEN
RESEARCH market with bounty 25 and commit equal to the (identity
stand-in) hash of "42"; submitting " 42 " with stake 1 resolves the
market and pays 26. -/
theorem submit_research_answer_spec_witness :
    (submit_research_answer (fun s => s) 7 1 " 42 " 1 "T"
        ⟨some ⟨"ALIVE", 100⟩, [], [⟨1, "Q", "RESEARCH", "42", 25, 9, "OPEN", none⟩], []⟩ =
      .ok ⟨⟨some ⟨"ALIVE", 100⟩,
        [⟨-1, "MARKET_STAKE", "TICK:T:RESEARCH:1"⟩,
         ⟨26, "RESEARCH_PAYOUT", "TICK:T:RESEARCH_WIN:1"⟩],
        [⟨1, "Q", "RESEARCH", "42", 25, 9, "RESOLVED", some "42"⟩],
        [⟨1, 7, "42", 1, "WIN", 26⟩]⟩, some ⟨1, 7, "42", 1, "WIN", 26⟩, "CORRECT"⟩) := by
  have h := ((submit_research_answer_spec (fun s => s) 7 1 " 42 " 1 "T"
      ⟨some ⟨"ALIVE", 100⟩, [], [⟨1, "Q", "RESEARCH", "42", 25, 9, "OPEN", none⟩], []⟩
      ⟨1, "Q", "RESEARCH", "42", 25, 9, "OPEN", none⟩
      (by simp [List.find?])).1 rfl rfl (by norm_num)).1 (by decide)
  have e1 : string_strip " 42 " = "42" := rfl
  have e2 : string_take "42" 500 = "42" := rfl
  have e3 : (25 : ℚ) + 1 = 26 := by norm_num
  simpa [e1, e2, e3] using h

/-! ### Tick engine (bot_runner.execute_tick)

The tick engine runs inside one session: the session state starts as
the committed `ArenaState` and is threaded through the steps; a commit
publishes it, an exception discards it (rollback) and falls to the
error boundary of lines 601-658, which opens a fresh session over the
committed state.  LLM calls are oracles supplied by the environment
(`None` models both "no output" and a raised-and-caught exception,
exactly how the code treats them).  Two exception injection points are
modelled: `raise_after_load` (the idle-streak query of step 0.5 raises,
before any ledger append) and `commit_raises` (the final step-5 commit
raises, e.g. a sequence conflict on the unique (bot, sequence)
constraint). -/

/-- Working record of the clawx MetricsCollector, restricted to the
fields the claims mention, with the AgentMetrics defaults. -/
structure Metrics where
  enforcement_mode : String
  idle_streak : ℕ
  phantom_entropy_fee : ℚ
  would_have_been_liquidated : Bool
  tick_outcome : String
  balance_snapshot : ℚ
  error : Option String
  enforcement_noop : Bool
deriving DecidableEq

/-- One publish_tick_event call: the outcome string and the optional
amount argument. -/
structure TickEvent where
  event : String
  amount : Option ℚ
deriving DecidableEq

/-- Parsed output of generate_research_with_tool. -/
structure ResearchAnswerData where
  answer : String
  confidence : ℚ
  used_tool : Bool
  tool_fee_charged : Bool
deriving DecidableEq

/-- One bet of the generate_portfolio_decision output. -/
structure PortfolioBet where
  market_id : ℕ
  outcome : String
  confidence : ℚ
deriving DecidableEq

/-- Parsed output of generate_prediction. -/
structure WagerPrediction where
  direction : String
  wager_amount : ℚ
deriving DecidableEq

/-- Environment of one execute_tick call: the enforcement mode, the
tick uuid, the four LLM oracle outputs (None = no usable output or a
caught exception), and the two injected exception points. -/
structure TickEnv where
  mode : String
  tick_id : String
  strategy : Option String
  research : Option ResearchAnswerData
  portfolio : Option (List PortfolioBet)
  prediction : Option WagerPrediction
  raise_after_load : Bool
  commit_raises : Bool
  err_reason : String
deriving DecidableEq

/-- Observable outcome of one execute_tick call: the Python return
value, the committed database state, the final metrics-collector
record, the published events, and the tick locals bets_placed,
research_attempted and ledger_written. -/
structure TickResult where
  ret : String
  db : ArenaState
  metrics : Metrics
  events : List TickEvent
  bets_placed : ℕ
  research_attempted : Bool
  ledger_written : Bool
deriving DecidableEq

/-- Outcome of the research step (bot_runner lines 284-362). -/
structure ResearchStep where
  st : ArenaState
  research_attempted : Bool
  ledger_written : Bool
  research_market_ids : List ℕ
deriving DecidableEq

/-- Research step of execute_tick: walk the active markets, stop at the
first RESEARCH one (the loop breaks on it whether or not an answer is
produced); with an answer of confidence above RESEARCH_CONFIDENCE_FLOOR
submit it with stake RESEARCH_STAKE, then charge TOOL_LOOKUP_FEE as a
RESEARCH_LOOKUP_FEE entry when the Wikipedia tool fee flag is set.  A
ValueError from submit_research_answer is caught by the enclosing
try/except and leaves the step without effect. -/
def research_step (sha256 : String → String) (env : TickEnv) (bot_id : ℕ)
    (st : ArenaState) : ResearchStep :=
  let tid := env.tick_id
  let all_markets := get_active_markets_for_agent bot_id st 10
  match all_markets.find? (fun m => m.source_type == "RESEARCH") with
  | none => ⟨st, false, false, []⟩
  | some mkt =>
    match env.research with
    | none => ⟨st, false, false, [mkt.id]⟩
    | some ad =>
      if ad.confidence > RESEARCH_CONFIDENCE_FLOOR then
        match submit_research_answer sha256 bot_id mkt.id ad.answer RESEARCH_STAKE tid st with
        | .error _ => ⟨st, false, false, [mkt.id]⟩
        | .ok out =>
          let st2 := out.st
          let st3 :=
            if ad.tool_fee_charged then
              ⟨st2.bot,
                st2.ledger ++ [⟨-TOOL_LOOKUP_FEE, "RESEARCH_LOOKUP_FEE", s!"TICK:{tid}:TOOL_FEE"⟩],
                st2.markets, st2.predictions⟩
            else st2
          ⟨st3, true, true, [mkt.id]⟩
      else ⟨st, false, false, [mkt.id]⟩

/-- Loop state of the portfolio step. -/
structure PortfolioAcc where
  st : ArenaState
  total_staked : ℚ
  bets_placed : ℕ
  ledger_written : Bool
deriving DecidableEq

/-- Portfolio bet loop of execute_tick (lines 394-438): stop at
MAX_MARKETS_PER_TICK bets, skip bets at or below CONFIDENCE_FLOOR,
stake = balance * confidence * STAKE_COEFFICIENT capped by the
remaining budget and floored at 0.01, stop when the remaining budget is
at or below 0.01, and treat a ValueError from place_market_bet as a
skip. -/
def portfolio_loop (env : TickEnv) (bot_id : ℕ) (current_balance max_total_stake : ℚ) :
    List PortfolioBet → PortfolioAcc → PortfolioAcc
  | [], acc => acc
  | bet :: rest, acc =>
    if acc.bets_placed ≥ MAX_MARKETS_PER_TICK then acc
    else if bet.confidence ≤ CONFIDENCE_FLOOR then
      portfolio_loop env bot_id current_balance max_total_stake rest acc
    else
      let raw_stake := current_balance * bet.confidence * STAKE_COEFFICIENT
      let remaining_budget := max_total_stake - acc.total_staked
      if remaining_budget ≤ 1/100 then acc
      else
        let stake := max (min raw_stake remaining_budget) (1/100)
        match place_market_bet bot_id bet.market_id bet.outcome stake env.tick_id acc.st with
        | .error _ => portfolio_loop env bot_id current_balance max_total_stake rest acc
        | .ok (st2, _) =>
          portfolio_loop env bot_id current_balance max_total_stake rest
            ⟨st2, acc.total_staked + stake, acc.bets_placed + 1, true⟩

/-- Error boundary of execute_tick (lines 601-658), entered when an
exception escapes the main body: in enforce mode with no prior ledger
write, open a fresh session over the committed state and, for an ALIVE
bot, either charge the flat ENTROPY_FEE as a HEARTBEAT entry referencing
the tick id with an ERROR suffix (cached balance at least the fee) or
drain the cached balance with a LIQUIDATION entry and mark the bot DEAD;
otherwise only note the error on the metrics collector. -/
def tick_error_boundary (env : TickEnv) (db : ArenaState) (m : Metrics)
    (ledger_written : Bool) : TickResult :=
  let tid := env.tick_id
  let reason := env.err_reason
  if env.mode == "enforce" && !ledger_written then
    match db.bot with
    | some err_bot =>
      if err_bot.status == "ALIVE" then
        if err_bot.balance ≥ ENTROPY_FEE then
          ⟨"HEARTBEAT",
            ⟨some ⟨err_bot.status, err_bot.balance - ENTROPY_FEE⟩,
              db.ledger ++ [⟨-ENTROPY_FEE, "HEARTBEAT", s!"TICK:{tid}:ERROR:{reason}"⟩],
              db.markets, db.predictions⟩,
            m, [⟨"HEARTBEAT", none⟩], 0, false, true⟩
        else
          ⟨"HEARTBEAT",
            ⟨some ⟨"DEAD", 0⟩,
              db.ledger ++ [⟨-err_bot.balance, "LIQUIDATION", s!"TICK:{tid}:LIQUIDATION"⟩],
              db.markets, db.predictions⟩,
            m, [⟨"LIQUIDATION", none⟩], 0, false, true⟩
      else ⟨"HEARTBEAT", db, m, [], 0, false, ledger_written⟩
    | none => ⟨"HEARTBEAT", db, m, [], 0, false, ledger_written⟩
  else
    ⟨"HEARTBEAT", db,
      { m with error := some reason, enforcement_noop := true }, [], 0, false, ledger_written⟩

/-- Outcome selection after the final commit succeeded (lines 564-599):
PORTFOLIO when bets were placed, then RESEARCH when a research answer
was submitted, then HEARTBEAT. -/
def tick_returns (st2 : ArenaState) (current_balance fee total_staked : ℚ)
    (bets_placed : ℕ) (research_attempted ledger_written : Bool) (m : Metrics) : TickResult :=
  if bets_placed > 0 then
    ⟨"PORTFOLIO", st2,
      { m with tick_outcome := "PORTFOLIO", balance_snapshot := current_balance },
      [⟨"PORTFOLIO", some (total_staked + fee)⟩], bets_placed, research_attempted, ledger_written⟩
  else if research_attempted then
    ⟨"RESEARCH", st2,
      { m with tick_outcome := "RESEARCH", balance_snapshot := current_balance },
      [⟨"RESEARCH", some (RESEARCH_STAKE + fee)⟩], bets_placed, research_attempted, ledger_written⟩
  else
    ⟨"HEARTBEAT", st2,
      { m with tick_outcome := "HEARTBEAT", balance_snapshot := current_balance },
      [⟨"HEARTBEAT", some fee⟩], bets_placed, research_attempted, ledger_written⟩

/-- Step 5 of execute_tick (lines 519-562): re-read the chain sum when
research ran (autoflush makes the sum include every pending entry of
this tick), then in enforce mode set the cached balance to
current_balance - fee - total_staked and append the HEARTBEAT entry for
−fee, and in observe mode write no entropy entry, record the phantom
fee, and sync the cached balance to current_balance - total_staked only
when stakes or research happened.  Then commit — which may raise
(`commit_raises`), in which case the session rolls back and the error
boundary runs over the committed state. -/
def heartbeat_finish (env : TickEnv) (db : ArenaState) (bot : BotRow) (st : ArenaState)
    (bal : ℚ) (fee total_staked : ℚ) (bets_placed : ℕ)
    (research_attempted ledger_written : Bool) (m : Metrics) : TickResult :=
  let tid := env.tick_id
  let current_balance := if research_attempted then get_balance st.ledger else bal
  if env.mode == "enforce" then
    let st2 : ArenaState :=
      ⟨some ⟨bot.status, current_balance - fee - total_staked⟩,
        st.ledger ++ [⟨-fee, "HEARTBEAT", s!"TICK:{tid}"⟩],
        st.markets, st.predictions⟩
    if env.commit_raises then tick_error_boundary env db m true
    else tick_returns st2 current_balance fee total_staked bets_placed
      research_attempted true m
  else
    let st2 : ArenaState :=
      if total_staked > 0 || research_attempted then
        ⟨some ⟨bot.status, current_balance - total_staked⟩, st.ledger, st.markets, st.predictions⟩
      else st
    let m2 := { m with phantom_entropy_fee := fee }
    if env.commit_raises then tick_error_boundary env db m2 ledger_written
    else tick_returns st2 current_balance fee total_staked bets_placed
      research_attempted ledger_written m2

/-- Steps 4 and 5 of execute_tick (lines 447-599): the single-wager
fallback — taken only when no market bet was placed, no research ran
and the strategy did not say WAIT, the LLM produced a prediction and the
balance is at least fee + 5 — appends one WAGER entry of
−(fee + wager) in enforce mode or −wager in observe mode (wager capped
at a tenth of the balance net of fee and floored at 0.01), sets the
cached balance, commits and returns WAGER; every other path falls to
the entropy finalization of heartbeat_finish. -/
def tick_wager_finish (env : TickEnv) (db : ArenaState) (bot : BotRow)
    (bal2 tick_entropy_fee : ℚ) (pacc : PortfolioAcc)
    (research_attempted skip_wager : Bool) (m1 : Metrics) : TickResult :=
  let tid := env.tick_id
  if pacc.bets_placed == 0 && !research_attempted && !skip_wager then
    match env.prediction with
    | some prediction =>
      if bal2 ≥ tick_entropy_fee + 5 then
        let available := bal2 - tick_entropy_fee
        let wager := max (min prediction.wager_amount (available * (1/10))) (1/100)
        let total_cost := if env.mode == "enforce" then tick_entropy_fee + wager else wager
        let stW : ArenaState :=
          ⟨some ⟨bot.status, bal2 - total_cost⟩,
            pacc.st.ledger ++ [⟨-total_cost, "WAGER", s!"TICK:{tid}"⟩],
            pacc.st.markets, pacc.st.predictions⟩
        ⟨"WAGER", stW,
          { m1 with tick_outcome := "WAGER", balance_snapshot := bal2 - total_cost },
          [⟨"WAGER", some total_cost⟩], pacc.bets_placed, research_attempted, true⟩
      else
        heartbeat_finish env db bot pacc.st bal2 tick_entropy_fee pacc.total_staked
          pacc.bets_placed research_attempted pacc.ledger_written m1
    | none =>
      heartbeat_finish env db bot pacc.st bal2 tick_entropy_fee pacc.total_staked
        pacc.bets_placed research_attempted pacc.ledger_written m1
  else
    heartbeat_finish env db bot pacc.st bal2 tick_entropy_fee pacc.total_staked
      pacc.bets_placed research_attempted pacc.ledger_written m1

/-- execute_tick from bot_runner.py: load the bot (DEAD or missing bots
return HEARTBEAT with no writes), read the authoritative chain-sum
balance, compute the idle streak and the progressive fee, run the
liquidation check, the strategy gate, the research step, the portfolio
step, the single-wager fallback and the entropy finalization, committing
at the path ends; exceptions fall to the error boundary. -/
def execute_tick (sha256 : String → String) (env : TickEnv) (bot_id : ℕ)
    (db : ArenaState) : TickResult :=
  let tid := env.tick_id
  let m0 : Metrics := ⟨env.mode, 0, 0, false, "HEARTBEAT", 0, none, false⟩
  match db.bot with
  | none => ⟨"HEARTBEAT", db, m0, [], 0, false, false⟩
  | some bot =>
  if bot.status == "DEAD" then ⟨"HEARTBEAT", db, m0, [], 0, false, false⟩
  else
  let current_balance := get_balance db.ledger
  if env.raise_after_load then tick_error_boundary env db m0 false
  else
  let idle_streak := get_idle_streak ((db.ledger.map (fun e => e.transaction_type)).reverse)
  let tick_entropy_fee := calculate_entropy_fee idle_streak
  let m1 : Metrics := { m0 with idle_streak := idle_streak }
  if current_balance < tick_entropy_fee then
    if env.mode == "enforce" then
      ⟨"LIQUIDATION",
        ⟨some ⟨"DEAD", 0⟩,
          db.ledger ++ [⟨-current_balance, "LIQUIDATION", s!"TICK:{tid}:LIQUIDATION"⟩],
          db.markets, db.predictions⟩,
        { m1 with tick_outcome := "LIQUIDATION", balance_snapshot := current_balance },
        [⟨"LIQUIDATION", some current_balance⟩], 0, false, true⟩
    else
      ⟨"HEARTBEAT", db,
        { m1 with
          phantom_entropy_fee := tick_entropy_fee,
          would_have_been_liquidated := true,
          tick_outcome := "LIQUIDATION_OBSERVED",
          balance_snapshot := current_balance },
        [⟨"LIQUIDATION_OBSERVED", some current_balance⟩], 0, false, false⟩
  else
  let strategy_action := env.strategy
  let skip_research := strategy_action.isSome && strategy_action != some "RESEARCH"
  let r : ResearchStep :=
    if !skip_research && current_balance ≥ tick_entropy_fee + RESEARCH_STAKE then
      research_step sha256 env bot_id db
    else ⟨db, false, false, []⟩
  let bal2 := if r.research_attempted then get_balance r.st.ledger else current_balance
  let skip_portfolio := strategy_action.isSome &&
    strategy_action != some "PORTFOLIO" && strategy_action != some "RESEARCH"
  let max_total_stake := (bal2 - tick_entropy_fee) * MAX_TOTAL_STAKE_FRAC
  let pacc : PortfolioAcc :=
    if !skip_portfolio && bal2 ≥ MIN_PORTFOLIO_BALANCE then
      let markets := (get_active_markets_for_agent bot_id r.st 10).filter
        (fun mk => !(r.research_market_ids.contains mk.id))
      if markets.isEmpty then ⟨r.st, 0, 0, r.ledger_written⟩
      else
        match env.portfolio with
        | none => ⟨r.st, 0, 0, r.ledger_written⟩
        | some bets =>
          portfolio_loop env bot_id bal2 max_total_stake bets ⟨r.st, 0, 0, r.ledger_written⟩
    else ⟨r.st, 0, 0, r.ledger_written⟩
  let skip_wager := strategy_action == some "WAIT"
  tick_wager_finish env db bot bal2 tick_entropy_fee pacc r.research_attempted skip_wager m1

/-- toString on a String is the identity (definitional); stated as a
rewrite so simp can normalize interpolated reference strings. -/
theorem toString_string (s : String) : toString s = s := rfl

/-- Idle streak of the committed ledger as execute_tick reads it. -/
def tick_idle_streak (db : ArenaState) : ℕ :=
  get_idle_streak ((db.ledger.map (fun e => e.transaction_type)).reverse)

/-- C4 (amended): when enforcement mode is observe and the chain-sum
balance is strictly below the progressive entropy fee, execute_tick
performs no ledger write, leaves the bot ALIVE with its balance
unchanged (the committed state is returned untouched), records
would_have_been_liquidated = true, phantom_entropy_fee = fee, tick
outcome LIQUIDATION_OBSERVED and balance_snapshot = balance on the
metrics record, and publishes one LIQUIDATION_OBSERVED event — but its
return value is the string HEARTBEAT, not LIQUIDATION_OBSERVED. -/
theorem observe_phantom_liquidation_spec (sha256 : String → String) (env : TickEnv)
    (bot_id : ℕ) (db : ArenaState) (bot : BotRow)
    (hbot : db.bot = some bot) (halive : bot.status = "ALIVE")
    (hmode : env.mode = "observe")
    (hraise : env.raise_after_load = false)
    (hpoor : get_balance db.ledger < calculate_entropy_fee (tick_idle_streak db)) :
    execute_tick sha256 env bot_id db =
      ⟨"HEARTBEAT", db,
        ⟨env.mode, tick_idle_streak db,
          calculate_entropy_fee (tick_idle_streak db),
          true, "LIQUIDATION_OBSERVED", get_balance db.ledger, none, false⟩,
        [⟨"LIQUIDATION_OBSERVED", some (get_balance db.ledger)⟩], 0, false, false⟩ := by
  unfold execute_tick
  rw [hbot]
  have hd : (bot.status == "DEAD") = false := by simp [halive]
  have hm : (env.mode == "enforce") = false := by simp [hmode]
  unfold tick_idle_streak at hpoor
  simp only [hd, hraise, hm, Bool.false_eq_true, if_false, if_pos hpoor, if_true]
  rfl

/-- Concrete application of observe_phantom_liquidation_spec: an ALIVE
bot with chain sum 0.20 and fee 0.50 in observe mode. -/
theorem observe_phantom_liquidation_spec_witness :
    execute_tick (fun s => s)
        ⟨"observe", "T5", none, none, none, none, false, false, "E"⟩ 1
        ⟨some ⟨"ALIVE", 1/5⟩, [⟨1/5, "GRANT", "G"⟩], [], []⟩ =
      ⟨"HEARTBEAT", ⟨some ⟨"ALIVE", 1/5⟩, [⟨1/5, "GRANT", "G"⟩], [], []⟩,
        ⟨"observe", 0, 1/2, true, "LIQUIDATION_OBSERVED", 1/5, none, false⟩,
        [⟨"LIQUIDATION_OBSERVED", some (1/5)⟩], 0, false, false⟩ := by
  have hidle : tick_idle_streak
      ⟨some ⟨"ALIVE", 1/5⟩, [⟨1/5, "GRANT", "G"⟩], [], []⟩ = 0 := by
    simp [tick_idle_streak, get_idle_streak]
  have hfee : calculate_entropy_fee 0 = 1/2 := by
    norm_num [calculate_entropy_fee, ENTROPY_BASE, ENTROPY_IDLE_PENALTY,
      IDLE_PENALTY_INTERVAL, MAX_ENTROPY_FEE]
  have hbal : get_balance [(⟨1/5, "GRANT", "G"⟩ : TickEntry)] = 1/5 := by
    simp [get_balance]
  have h := observe_phantom_liquidation_spec (fun s => s)
    ⟨"observe", "T5", none, none, none, none, false, false, "E"⟩ 1
    ⟨some ⟨"ALIVE", 1/5⟩, [⟨1/5, "GRANT", "G"⟩], [], []⟩ ⟨"ALIVE", 1/5⟩
    rfl rfl rfl rfl
    (by rw [hidle, hfee]; show get_balance [(⟨1/5, "GRANT", "G"⟩ : TickEntry)] < 1/2
        rw [hbal]; norm_num)
  rw [h]
  dsimp only
  rw [hidle, hfee]
  show TickResult.mk _ _ ⟨_, _, _, _, _, get_balance [(⟨1/5, "GRANT", "G"⟩ : TickEntry)], _, _⟩
    [⟨_, some (get_balance [(⟨1/5, "GRANT", "G"⟩ : TickEntry)])⟩] _ _ _ = _
  rw [hbal]

/-- C4 counterexample: at a concrete observe-mode insolvent tick
(ALIVE bot, chain sum 0.20, fee 0.50) the value returned by
execute_tick is the string HEARTBEAT and not LIQUIDATION_OBSERVED; the
LIQUIDATION_OBSERVED label appears only as the tick_outcome of the
metrics record. -/
theorem observe_phantom_liquidation_counterexample :
    (execute_tick (fun s => s)
        ⟨"observe", "CE4", none, none, none, none, false, false, "E"⟩ 1
        ⟨some ⟨"ALIVE", 1/5⟩, [⟨1/5, "GRANT", "G"⟩], [], []⟩).ret ≠
      "LIQUIDATION_OBSERVED" ∧
    (execute_tick (fun s => s)
        ⟨"observe", "CE4", none, none, none, none, false, false, "E"⟩ 1
        ⟨some ⟨"ALIVE", 1/5⟩, [⟨1/5, "GRANT", "G"⟩], [], []⟩).ret = "HEARTBEAT" ∧
    (execute_tick (fun s => s)
        ⟨"observe", "CE4", none, none, none, none, false, false, "E"⟩ 1
        ⟨some ⟨"ALIVE", 1/5⟩, [⟨1/5, "GRANT", "G"⟩], [], []⟩).metrics.tick_outcome =
      "LIQUIDATION_OBSERVED" := by
  have hfee : calculate_entropy_fee 0 = 1/2 := by
    norm_num [calculate_entropy_fee, ENTROPY_BASE, ENTROPY_IDLE_PENALTY,
      IDLE_PENALTY_INTERVAL, MAX_ENTROPY_FEE]
  refine ⟨?_, ?_, ?_⟩
  · simp [execute_tick, get_balance, get_idle_streak, hfee]
    norm_num
    decide
  · simp [execute_tick, get_balance, get_idle_streak, hfee]
    norm_num
  · simp [execute_tick, get_balance, get_idle_streak, hfee]
    norm_num

/-- C9: the error boundary of execute_tick in enforce mode (entered
here through an exception raised after the bot row is loaded and before
any ledger append) charges the flat base fee ENTROPY_FEE = 0.50 for
every committed ledger — hence regardless of the progressive fee the
tick would have computed from the idle streak — and branches on the
cached balance column of the freshly loaded bot row, not on the chain
sum: with cached balance at least 0.50 it appends HEARTBEAT −0.50 with
reference TICK:tick_id:ERROR:reason and decrements the cache by 0.50,
keeping the bot ALIVE; with cached balance below 0.50 it appends
LIQUIDATION −cached_balance, zeroes the cache and marks the bot DEAD. -/
theorem error_boundary_spec (sha256 : String → String) (env : TickEnv)
    (bot_id : ℕ) (db : ArenaState) (bot : BotRow)
    (hbot : db.bot = some bot) (halive : bot.status = "ALIVE")
    (hmode : env.mode = "enforce") (hraise : env.raise_after_load = true) :
    (ENTROPY_FEE ≤ bot.balance →
      execute_tick sha256 env bot_id db =
        ⟨"HEARTBEAT",
          ⟨some ⟨"ALIVE", bot.balance - ENTROPY_FEE⟩,
            db.ledger ++ [⟨-ENTROPY_FEE, "HEARTBEAT",
              "TICK:" ++ env.tick_id ++ ":ERROR:" ++ env.err_reason⟩],
            db.markets, db.predictions⟩,
          ⟨env.mode, 0, 0, false, "HEARTBEAT", 0, none, false⟩,
          [⟨"HEARTBEAT", none⟩], 0, false, true⟩) ∧
    (bot.balance < ENTROPY_FEE →
      execute_tick sha256 env bot_id db =
        ⟨"HEARTBEAT",
          ⟨some ⟨"DEAD", 0⟩,
            db.ledger ++ [⟨-bot.balance, "LIQUIDATION",
              "TICK:" ++ env.tick_id ++ ":LIQUIDATION"⟩],
            db.markets, db.predictions⟩,
          ⟨env.mode, 0, 0, false, "HEARTBEAT", 0, none, false⟩,
          [⟨"LIQUIDATION", none⟩], 0, false, true⟩) := by
  have hd : (bot.status == "DEAD") = false := by simp [halive]
  have ha : (bot.status == "ALIVE") = true := by simp [halive]
  constructor
  · intro hge
    unfold execute_tick
    rw [hbot]
    simp only [hd, hraise, Bool.false_eq_true, if_false, if_true]
    unfold tick_error_boundary
    rw [hbot]
    simp only [hmode, Bool.not_false, Bool.and_true, beq_self_eq_true, if_true, ha,
      if_pos hge]
    simp [halive, toString_string, String.append_empty]
  · intro hlt
    unfold execute_tick
    rw [hbot]
    simp only [hd, hraise, Bool.false_eq_true, if_false, if_true]
    unfold tick_error_boundary
    rw [hbot]
    simp only [hmode, Bool.not_false, Bool.and_true, beq_self_eq_true, if_true, ha,
      if_neg (not_le.mpr hlt)]
    simp [toString_string, String.append_empty]

/-- Concrete application of error_boundary_spec: the committed ledger
carries six trailing HEARTBEAT entries, so the tick would have computed
a progressive fee of 0.75, yet the error-path entry is −0.50 against
the cached balance 2. -/
theorem error_boundary_spec_witness :
    ENTROPY_FEE ≤ (2 : ℚ) ∧
    calculate_entropy_fee (tick_idle_streak
      ⟨some ⟨"ALIVE", 2⟩, List.replicate 6 ⟨-1/2, "HEARTBEAT", "T"⟩, [], []⟩) = 3/4 ∧
    execute_tick (fun s => s)
        ⟨"enforce", "T9", none, none, none, none, true, false, "DbError"⟩ 1
        ⟨some ⟨"ALIVE", 2⟩, List.replicate 6 ⟨-1/2, "HEARTBEAT", "T"⟩, [], []⟩ =
      ⟨"HEARTBEAT",
        ⟨some ⟨"ALIVE", 3/2⟩,
          List.replicate 6 ⟨-1/2, "HEARTBEAT", "T"⟩ ++
            [⟨-ENTROPY_FEE, "HEARTBEAT", "TICK:T9:ERROR:DbError"⟩],
          [], []⟩,
        ⟨"enforce", 0, 0, false, "HEARTBEAT", 0, none, false⟩,
        [⟨"HEARTBEAT", none⟩], 0, false, true⟩ := by
  have hfee : ENTROPY_FEE ≤ (2 : ℚ) := by norm_num [ENTROPY_FEE, ENTROPY_BASE]
  refine ⟨hfee, ?_, ?_⟩
  · have : tick_idle_streak
        ⟨some ⟨"ALIVE", 2⟩, List.replicate 6 ⟨-1/2, "HEARTBEAT", "T"⟩, [], []⟩ = 6 := by
      simp [tick_idle_streak, get_idle_streak]
    rw [this]
    norm_num [calculate_entropy_fee, ENTROPY_BASE, ENTROPY_IDLE_PENALTY,
      IDLE_PENALTY_INTERVAL, MAX_ENTROPY_FEE]
  · have h := (error_boundary_spec (fun s => s)
      ⟨"enforce", "T9", none, none, none, none, true, false, "DbError"⟩ 1
      ⟨some ⟨"ALIVE", 2⟩, List.replicate 6 ⟨-1/2, "HEARTBEAT", "T"⟩, [], []⟩
      ⟨"ALIVE", 2⟩ rfl rfl rfl rfl).1 hfee
    rw [h]
    norm_num [ENTROPY_FEE, ENTROPY_BASE]
    rfl

theorem tick_returns_fields (st2 : ArenaState) (cb fee ts : ℚ) (bp : ℕ) (ra lw : Bool)
    (m : Metrics) :
    (tick_returns st2 cb fee ts bp ra lw m).bets_placed = bp ∧
    (tick_returns st2 cb fee ts bp ra lw m).research_attempted = ra ∧
    (tick_returns st2 cb fee ts bp ra lw m).ret =
      (if bp > 0 then "PORTFOLIO" else if ra = true then "RESEARCH" else "HEARTBEAT") := by
  unfold tick_returns
  by_cases h : bp > 0
  · simp [h]
  · by_cases hra : ra = true
    · simp [h, hra]
    · simp only [Bool.not_eq_true] at hra
      simp [h, hra]

theorem heartbeat_finish_fields (env : TickEnv) (db : ArenaState) (bot : BotRow)
    (st : ArenaState) (bal fee ts : ℚ) (bp : ℕ) (ra lw : Bool) (m : Metrics)
    (hcommit : env.commit_raises = false) :
    (heartbeat_finish env db bot st bal fee ts bp ra lw m).bets_placed = bp ∧
    (heartbeat_finish env db bot st bal fee ts bp ra lw m).research_attempted = ra ∧
    (heartbeat_finish env db bot st bal fee ts bp ra lw m).ret =
      (if bp > 0 then "PORTFOLIO" else if ra = true then "RESEARCH" else "HEARTBEAT") := by
  unfold heartbeat_finish
  by_cases hm : (env.mode == "enforce") = true
  · simp only [hm, if_true, hcommit, Bool.false_eq_true, if_false]
    exact tick_returns_fields _ _ _ _ _ _ _ _
  · simp only [Bool.not_eq_true] at hm
    simp only [hm, Bool.false_eq_true, if_false, hcommit]
    exact tick_returns_fields _ _ _ _ _ _ _ _

theorem tick_wager_finish_fields (env : TickEnv) (db : ArenaState) (bot : BotRow)
    (bal2 fee : ℚ) (pacc : PortfolioAcc) (ra skipw : Bool) (m1 : Metrics)
    (hcommit : env.commit_raises = false) :
    (0 < (tick_wager_finish env db bot bal2 fee pacc ra skipw m1).bets_placed →
      (tick_wager_finish env db bot bal2 fee pacc ra skipw m1).ret = "PORTFOLIO") ∧
    ((tick_wager_finish env db bot bal2 fee pacc ra skipw m1).bets_placed = 0 →
      (tick_wager_finish env db bot bal2 fee pacc ra skipw m1).research_attempted = true →
      (tick_wager_finish env db bot bal2 fee pacc ra skipw m1).ret = "RESEARCH") ∧
    ((tick_wager_finish env db bot bal2 fee pacc ra skipw m1).ret = "WAGER" →
      (tick_wager_finish env db bot bal2 fee pacc ra skipw m1).bets_placed = 0 ∧
      (tick_wager_finish env db bot bal2 fee pacc ra skipw m1).research_attempted = false) := by
  have hfin : ∀ (st : ArenaState) (m : Metrics),
      (0 < (heartbeat_finish env db bot st bal2 fee pacc.total_staked
          pacc.bets_placed ra pacc.ledger_written m).bets_placed →
        (heartbeat_finish env db bot st bal2 fee pacc.total_staked
          pacc.bets_placed ra pacc.ledger_written m).ret = "PORTFOLIO") ∧
      ((heartbeat_finish env db bot st bal2 fee pacc.total_staked
          pacc.bets_placed ra pacc.ledger_written m).bets_placed = 0 →
        (heartbeat_finish env db bot st bal2 fee pacc.total_staked
          pacc.bets_placed ra pacc.ledger_written m).research_attempted = true →
        (heartbeat_finish env db bot st bal2 fee pacc.total_staked
          pacc.bets_placed ra pacc.ledger_written m).ret = "RESEARCH") ∧
      ((heartbeat_finish env db bot st bal2 fee pacc.total_staked
          pacc.bets_placed ra pacc.ledger_written m).ret = "WAGER" →
        (heartbeat_finish env db bot st bal2 fee pacc.total_staked
          pacc.bets_placed ra pacc.ledger_written m).bets_placed = 0 ∧
        (heartbeat_finish env db bot st bal2 fee pacc.total_staked
          pacc.bets_placed ra pacc.ledger_written m).research_attempted = false) := by
    intro st m
    obtain ⟨h1, h2, h3⟩ := heartbeat_finish_fields env db bot st bal2 fee
      pacc.total_staked pacc.bets_placed ra pacc.ledger_written m hcommit
    refine ⟨?_, ?_, ?_⟩
    · intro hpos
      rw [h1] at hpos
      rw [h3, if_pos hpos]
    · intro hbz hra
      rw [h1] at hbz
      rw [h2] at hra
      rw [h3, hbz, hra]
      simp
    · intro hret
      rw [h3] at hret
      split at hret
      · simp at hret
      · split at hret <;> simp_all
  unfold tick_wager_finish
  by_cases hw : (pacc.bets_placed == 0 && !ra && !skipw) = true
  · simp only [hw, if_true]
    have hparts := hw
    simp only [Bool.and_eq_true, beq_iff_eq, Bool.not_eq_true'] at hparts
    obtain ⟨⟨hbp0, hra⟩, hskip⟩ := hparts
    cases hpred : env.prediction with
    | none => exact hfin _ _
    | some p =>
      by_cases hbal : bal2 ≥ fee + 5
      · simp only [if_pos hbal]
        refine ⟨?_, ?_, ?_⟩
        · intro hpos
          simp only [hbp0] at hpos
          omega
        · intro _ hrat
          simp only [hra] at hrat
          cases hrat
        · intro _
          exact ⟨hbp0, hra⟩
      · simp only [if_neg hbal]
        exact hfin _ _
  · simp only [hw, Bool.false_eq_true, if_false]
    exact hfin _ _

/-- C5 (amended): with no injected exception, the outcome returned by
execute_tick obeys the precedence PORTFOLIO over RESEARCH over WAGER
over HEARTBEAT, with LIQUIDATION superseding all: whenever market bets
were placed the return is PORTFOLIO — in particular a tick in which a
research answer settled and portfolio stakes were also placed returns
PORTFOLIO, not RESEARCH; RESEARCH is returned when research settled and
no bet was placed; WAGER only when neither happened; and an enforce-mode
tick on an ALIVE bot whose chain sum is below the fee returns
LIQUIDATION before any action runs. -/
theorem outcome_precedence_spec (sha256 : String → String) (env : TickEnv)
    (bot_id : ℕ) (db : ArenaState)
    (hraise : env.raise_after_load = false) (hcommit : env.commit_raises = false) :
    (0 < (execute_tick sha256 env bot_id db).bets_placed →
      (execute_tick sha256 env bot_id db).ret = "PORTFOLIO") ∧
    ((execute_tick sha256 env bot_id db).bets_placed = 0 →
      (execute_tick sha256 env bot_id db).research_attempted = true →
      (execute_tick sha256 env bot_id db).ret = "RESEARCH") ∧
    ((execute_tick sha256 env bot_id db).ret = "WAGER" →
      (execute_tick sha256 env bot_id db).bets_placed = 0 ∧
      (execute_tick sha256 env bot_id db).research_attempted = false) ∧
    (∀ bot : BotRow, db.bot = some bot → bot.status = "ALIVE" →
      env.mode = "enforce" →
      get_balance db.ledger < calculate_entropy_fee (tick_idle_streak db) →
      (execute_tick sha256 env bot_id db).ret = "LIQUIDATION") := by
  unfold execute_tick tick_idle_streak
  cases hdb : db.bot with
  | none => simp
  | some bot =>
    by_cases hdead : (bot.status == "DEAD") = true
    · simp only [hdead, if_true]
      have : bot.status = "DEAD" := by simpa using hdead
      simp [this]
    · simp only [hdead, Bool.false_eq_true, if_false, hraise]
      by_cases hpoor : get_balance db.ledger <
          calculate_entropy_fee (get_idle_streak
            ((db.ledger.map (fun e => e.transaction_type)).reverse))
      · simp only [if_pos hpoor]
        by_cases hm : (env.mode == "enforce") = true
        · simp only [hm, if_true]
          simp
        · simp only [hm, Bool.false_eq_true, if_false]
          have hmne : env.mode ≠ "enforce" := by simpa using hm
          simp [hmne]
      · simp only [if_neg hpoor]
        refine ⟨?_, ?_, ?_, ?_⟩
        · exact (tick_wager_finish_fields env db bot _ _ _ _ _ _ hcommit).1
        · exact (tick_wager_finish_fields env db bot _ _ _ _ _ _ hcommit).2.1
        · exact (tick_wager_finish_fields env db bot _ _ _ _ _ _ hcommit).2.2
        · intro b hb _ _ hlt
          cases hb
          exact absurd hlt hpoor

/-- Concrete application of outcome_precedence_spec: the C5 scenario
tick (research settled, one portfolio bet placed) returns PORTFOLIO by
the first clause of the precedence theorem. -/
theorem outcome_precedence_spec_witness :
    0 < (execute_tick (fun _ => "H42")
        ⟨"enforce", "T3", none, some ⟨"42", 4/5, false, false⟩,
          some [⟨2, "YES", 9/10⟩], none, false, false, "E"⟩ 1
        ⟨some ⟨"ALIVE", 100⟩, [⟨100, "GRANT", "G"⟩],
          [⟨1, "Q", "RESEARCH", "H42", 25, 5, "OPEN", none⟩,
           ⟨2, "W", "WEATHER", "", 3, 8, "OPEN", none⟩], []⟩).bets_placed ∧
    (execute_tick (fun _ => "H42")
        ⟨"enforce", "T3", none, some ⟨"42", 4/5, false, false⟩,
          some [⟨2, "YES", 9/10⟩], none, false, false, "E"⟩ 1
        ⟨some ⟨"ALIVE", 100⟩, [⟨100, "GRANT", "G"⟩],
          [⟨1, "Q", "RESEARCH", "H42", 25, 5, "OPEN", none⟩,
           ⟨2, "W", "WEATHER", "", 3, 8, "OPEN", none⟩], []⟩).ret = "PORTFOLIO" := by
  have hbets : 0 < (execute_tick (fun _ => "H42")
      ⟨"enforce", "T3", none, some ⟨"42", 4/5, false, false⟩,
        some [⟨2, "YES", 9/10⟩], none, false, false, "E"⟩ 1
      ⟨some ⟨"ALIVE", 100⟩, [⟨100, "GRANT", "G"⟩],
        [⟨1, "Q", "RESEARCH", "H42", 25, 5, "OPEN", none⟩,
         ⟨2, "W", "WEATHER", "", 3, 8, "OPEN", none⟩], []⟩).bets_placed := by
    have hfee : calculate_entropy_fee 0 = 1/2 := by
      norm_num [calculate_entropy_fee, ENTROPY_BASE, ENTROPY_IDLE_PENALTY,
        IDLE_PENALTY_INTERVAL, MAX_ENTROPY_FEE]
    simp [execute_tick, tick_wager_finish, research_step, portfolio_loop,
      get_active_markets_for_agent, sortByDeadline, insertByDeadline,
      get_balance, get_idle_streak, hfee, submit_research_answer,
      place_market_bet, string_strip, string_take,
      RESEARCH_STAKE, RESEARCH_CONFIDENCE_FLOOR, MIN_PORTFOLIO_BALANCE,
      MAX_MARKETS_PER_TICK, CONFIDENCE_FLOOR, STAKE_COEFFICIENT,
      MAX_TOTAL_STAKE_FRAC, List.find?, List.filter]
    norm_num
    simp [sortByDeadline, insertByDeadline]
    norm_num [heartbeat_finish, tick_returns]
  exact ⟨hbets, (outcome_precedence_spec (fun _ => "H42")
    ⟨"enforce", "T3", none, some ⟨"42", 4/5, false, false⟩,
      some [⟨2, "YES", 9/10⟩], none, false, false, "E"⟩ 1
    ⟨some ⟨"ALIVE", 100⟩, [⟨100, "GRANT", "G"⟩],
      [⟨1, "Q", "RESEARCH", "H42", 25, 5, "OPEN", none⟩,
       ⟨2, "W", "WEATHER", "", 3, 8, "OPEN", none⟩], []⟩ rfl rfl).1 hbets⟩

/-- C5 counterexample: a concrete enforce-mode tick in which the
research answer settled (research_attempted) and one portfolio stake
was placed returns PORTFOLIO, not the RESEARCH the claim asserts. -/
theorem outcome_precedence_counterexample :
    (execute_tick (fun _ => "H42")
        ⟨"enforce", "CE5", none, some ⟨"42", 4/5, false, false⟩,
          some [⟨2, "YES", 9/10⟩], none, false, false, "E"⟩ 1
        ⟨some ⟨"ALIVE", 100⟩, [⟨100, "GRANT", "G"⟩],
          [⟨1, "Q", "RESEARCH", "H42", 25, 5, "OPEN", none⟩,
           ⟨2, "W", "WEATHER", "", 3, 8, "OPEN", none⟩], []⟩).research_attempted = true ∧
    0 < (execute_tick (fun _ => "H42")
        ⟨"enforce", "CE5", none, some ⟨"42", 4/5, false, false⟩,
          some [⟨2, "YES", 9/10⟩], none, false, false, "E"⟩ 1
        ⟨some ⟨"ALIVE", 100⟩, [⟨100, "GRANT", "G"⟩],
          [⟨1, "Q", "RESEARCH", "H42", 25, 5, "OPEN", none⟩,
           ⟨2, "W", "WEATHER", "", 3, 8, "OPEN", none⟩], []⟩).bets_placed ∧
    (execute_tick (fun _ => "H42")
        ⟨"enforce", "CE5", none, some ⟨"42", 4/5, false, false⟩,
          some [⟨2, "YES", 9/10⟩], none, false, false, "E"⟩ 1
        ⟨some ⟨"ALIVE", 100⟩, [⟨100, "GRANT", "G"⟩],
          [⟨1, "Q", "RESEARCH", "H42", 25, 5, "OPEN", none⟩,
           ⟨2, "W", "WEATHER", "", 3, 8, "OPEN", none⟩], []⟩).ret = "PORTFOLIO" ∧
    (execute_tick (fun _ => "H42")
        ⟨"enforce", "CE5", none, some ⟨"42", 4/5, false, false⟩,
          some [⟨2, "YES", 9/10⟩], none, false, false, "E"⟩ 1
        ⟨some ⟨"ALIVE", 100⟩, [⟨100, "GRANT", "G"⟩],
          [⟨1, "Q", "RESEARCH", "H42", 25, 5, "OPEN", none⟩,
           ⟨2, "W", "WEATHER", "", 3, 8, "OPEN", none⟩], []⟩).ret ≠ "RESEARCH" := by
  have hfee : calculate_entropy_fee 0 = 1/2 := by
    norm_num [calculate_entropy_fee, ENTROPY_BASE, ENTROPY_IDLE_PENALTY,
      IDLE_PENALTY_INTERVAL, MAX_ENTROPY_FEE]
  refine ⟨?_, ?_, ?_, ?_⟩ <;>
    · simp [execute_tick, tick_wager_finish, research_step, portfolio_loop,
        get_active_markets_for_agent, sortByDeadline, insertByDeadline,
        get_balance, get_idle_streak, hfee, submit_research_answer,
        place_market_bet, string_strip, string_take,
        RESEARCH_STAKE, RESEARCH_CONFIDENCE_FLOOR, MIN_PORTFOLIO_BALANCE,
        MAX_MARKETS_PER_TICK, CONFIDENCE_FLOOR, STAKE_COEFFICIENT,
        MAX_TOTAL_STAKE_FRAC, List.find?, List.filter]
      norm_num
      simp [sortByDeadline, insertByDeadline]
      norm_num [heartbeat_finish, tick_returns]
      try decide

/-- C2 failing input evaluated: an enforce-mode tick completes as
PORTFOLIO after the research stake (answer WRONG, −1.00) and one
portfolio stake (−10.395) land together; the chain sum ends at 88.105
but the committed cached balance is 77.71 — the portfolio stake is
subtracted a second time because the step-5 balance re-read (done only
when research ran) already includes the pending stake entries.  The
cached balance therefore fails to reconcile to chain_sum after a
completed tick. -/
theorem cached_balance_code_bug :
    (execute_tick (fun _ => "NOPE")
        ⟨"enforce", "C2", none, some ⟨"42", 4/5, false, false⟩,
          some [⟨2, "YES", 7/10⟩], none, false, false, "E"⟩ 1
        ⟨some ⟨"ALIVE", 100⟩, [⟨100, "GRANT", "G"⟩],
          [⟨1, "Q", "RESEARCH", "H", 25, 5, "OPEN", none⟩,
           ⟨2, "W", "WEATHER", "", 3, 8, "OPEN", none⟩], []⟩).ret = "PORTFOLIO" ∧
    ((execute_tick (fun _ => "NOPE")
        ⟨"enforce", "C2", none, some ⟨"42", 4/5, false, false⟩,
          some [⟨2, "YES", 7/10⟩], none, false, false, "E"⟩ 1
        ⟨some ⟨"ALIVE", 100⟩, [⟨100, "GRANT", "G"⟩],
          [⟨1, "Q", "RESEARCH", "H", 25, 5, "OPEN", none⟩,
           ⟨2, "W", "WEATHER", "", 3, 8, "OPEN", none⟩], []⟩).db.bot.map
        (fun b => b.balance)) = some (7771/100) ∧
    get_balance (execute_tick (fun _ => "NOPE")
        ⟨"enforce", "C2", none, some ⟨"42", 4/5, false, false⟩,
          some [⟨2, "YES", 7/10⟩], none, false, false, "E"⟩ 1
        ⟨some ⟨"ALIVE", 100⟩, [⟨100, "GRANT", "G"⟩],
          [⟨1, "Q", "RESEARCH", "H", 25, 5, "OPEN", none⟩,
           ⟨2, "W", "WEATHER", "", 3, 8, "OPEN", none⟩], []⟩).db.ledger = 17621/200 ∧
    (7771 : ℚ)/100 ≠ 17621/200 := by
  have hfee : calculate_entropy_fee 0 = 1/2 := by
    norm_num [calculate_entropy_fee, ENTROPY_BASE, ENTROPY_IDLE_PENALTY,
      IDLE_PENALTY_INTERVAL, MAX_ENTROPY_FEE]
  refine ⟨?_, ?_, ?_, by norm_num⟩ <;>
    · simp [execute_tick, tick_wager_finish, research_step, portfolio_loop,
        get_active_markets_for_agent, sortByDeadline, insertByDeadline,
        get_balance, get_idle_streak, hfee, submit_research_answer,
        place_market_bet, string_strip, string_take,
        RESEARCH_STAKE, RESEARCH_CONFIDENCE_FLOOR, MIN_PORTFOLIO_BALANCE,
        MAX_MARKETS_PER_TICK, CONFIDENCE_FLOOR, STAKE_COEFFICIENT,
        MAX_TOTAL_STAKE_FRAC, List.find?, List.filter]
      norm_num
      simp [sortByDeadline, insertByDeadline]
      norm_num [heartbeat_finish, tick_returns]
      try decide
      try simp [get_balance]
      try norm_num

/-- C1 failing input evaluated, two parts.  First: an enforce-mode tick
on an ALIVE bot in which the final commit raises (a sequence conflict)
after the HEARTBEAT entry was appended in-session commits zero new
ledger entries — the rollback discards the appended entry and the error
boundary is skipped because the ledger_written flag is already true —
in direct contradiction of the Write-or-Die contract stated in the
module docstring.  Second: when the error boundary does run (exception
before any append) against a cached balance below the fee, the
LIQUIDATION entry it commits references TICK:tick_id:LIQUIDATION with
no ERROR suffix. -/
theorem write_or_die_code_bug :
    ((execute_tick (fun s => s)
        ⟨"enforce", "CB1", none, none, none, none, false, true, "SequenceConflict"⟩ 1
        ⟨some ⟨"ALIVE", 100⟩, [⟨100, "GRANT", "G"⟩], [], []⟩).db.ledger =
      [⟨100, "GRANT", "G"⟩] ∧
     (execute_tick (fun s => s)
        ⟨"enforce", "CB1", none, none, none, none, false, true, "SequenceConflict"⟩ 1
        ⟨some ⟨"ALIVE", 100⟩, [⟨100, "GRANT", "G"⟩], [], []⟩).ret = "HEARTBEAT" ∧
     (execute_tick (fun s => s)
        ⟨"enforce", "CB1", none, none, none, none, false, true, "SequenceConflict"⟩ 1
        ⟨some ⟨"ALIVE", 100⟩, [⟨100, "GRANT", "G"⟩], [], []⟩).ledger_written = true) ∧
    (execute_tick (fun s => s)
        ⟨"enforce", "CB2", none, none, none, none, true, false, "SequenceConflict"⟩ 1
        ⟨some ⟨"ALIVE", 1/5⟩, [⟨1/5, "GRANT", "G"⟩], [], []⟩).db.ledger =
      [⟨1/5, "GRANT", "G"⟩, ⟨-(1/5), "LIQUIDATION", "TICK:CB2:LIQUIDATION"⟩] := by
  have hfee : calculate_entropy_fee 0 = 1/2 := by
    norm_num [calculate_entropy_fee, ENTROPY_BASE, ENTROPY_IDLE_PENALTY,
      IDLE_PENALTY_INTERVAL, MAX_ENTROPY_FEE]
  refine ⟨⟨?_, ?_, ?_⟩, ?_⟩
  · simp [execute_tick, tick_wager_finish, research_step, portfolio_loop,
      get_active_markets_for_agent, sortByDeadline, insertByDeadline,
      get_balance, get_idle_streak, hfee, heartbeat_finish, tick_error_boundary,
      RESEARCH_STAKE, List.find?, List.filter]
    norm_num [heartbeat_finish, tick_error_boundary, tick_returns]
  · simp [execute_tick, tick_wager_finish, research_step, portfolio_loop,
      get_active_markets_for_agent, sortByDeadline, insertByDeadline,
      get_balance, get_idle_streak, hfee, heartbeat_finish, tick_error_boundary,
      RESEARCH_STAKE, List.find?, List.filter]
    norm_num [heartbeat_finish, tick_error_boundary, tick_returns]
  · simp [execute_tick, tick_wager_finish, research_step, portfolio_loop,
      get_active_markets_for_agent, sortByDeadline, insertByDeadline,
      get_balance, get_idle_streak, hfee, heartbeat_finish, tick_error_boundary,
      RESEARCH_STAKE, List.find?, List.filter]
    norm_num [heartbeat_finish, tick_error_boundary, tick_returns]
  · simp [execute_tick, tick_error_boundary, get_balance, get_idle_streak, hfee,
      ENTROPY_FEE, ENTROPY_BASE, toString_string, String.append_empty]
    norm_num
    try rfl

end ClawX

